import Mathlib

/-!
Verification of the Smooth chat-assistant repository (src/main.py, src/api.py,
src/server.py) against its natural-language specification.

The Python sources are shallowly embedded as pure Lean functions.  External
effectsate boundaries (HTTP requests, the chat platform, the clock, the random
generator) are passed in explicitly as parameters describing their outcome, and
the effect calls a handler performs are recorded in an explicit trace list.
Python `dict` values keyed by strings are embedded as association lists with
first-occurrence update semantics, and Python exceptions are embedded with
`Except Unit` (`.error ()` marks an exception escaping the embedded fragment).
-/

namespace Smooth

/-! ## String helpers (Python `in`, truthiness, `or`, `strip`) -/

/-- Does the character list `hay` (first argument) start with `needle`? -/
def charsStartWith : List Char → List Char → Bool
  | _, [] => true
  | [], _ :: _ => false
  | a :: as, b :: bs => a == b && charsStartWith as bs

/-- Python `needle in hay` on character lists: substring occurrence test. -/
def charsContain (needle : List Char) : List Char → Bool
  | [] => needle.isEmpty
  | b :: bs => charsStartWith (b :: bs) needle || charsContain needle bs

/-- Python `needle in hay` for strings (case-sensitive; callers lower-case first
when the source does). -/
def strContains (hay needle : String) : Bool :=
  charsContain needle.toList hay.toList

/-- Python string truthiness for an `Optional[str]`: `None` and `""` are falsy. -/
def pyTruthy : Option String → Bool
  | none => false
  | some s => decide (s ≠ "")

/-- Python `a or b` on strings (empty string is falsy). -/
def pyOrStr (a b : String) : String :=
  if a = "" then b else a

/-- Characters removed by Python `str.strip()` with no arguments
(the common ASCII whitespace set). -/
def pyIsSpace (c : Char) : Bool :=
  c = ' ' || c = '\t' || c = '\n' || c = '\x0d' || c = '\x0b' || c = '\x0c'

/-- Python `s.strip()`: drop leading and trailing whitespace. -/
def pyStrip (s : String) : String :=
  ((s.toList.dropWhile pyIsSpace).reverse.dropWhile pyIsSpace).reverse.asString

/-- Python `s.lower()` (per-character, as the sources use it on ASCII names
and keywords). -/
def pyLower (s : String) : String :=
  (s.toList.map Char.toLower).asString

/-- Python `s.upper()` (per-character). -/
def pyUpper (s : String) : String :=
  (s.toList.map Char.toUpper).asString

/-! ## ChatRegistry (src/main.py: load_groups / save_groups / add_group)

`groups.json` holds a JSON object mapping the stringified chat id to
`{"title": ..., "added_at": ...}`.  We embed the dict as an association list
with Python-dict assignment semantics (`groups[k] = v` replaces the value of an
existing key in place, else appends) and the ISO timestamp produced by
`datetime.now().isoformat()` as an abstract `Nat` supplied by the caller. -/

/-- One value of the `groups.json` object: `{"title": ..., "added_at": ...}`. -/
structure GroupEntry where
  title : String
  added_at : Nat
deriving DecidableEq, Repr

/-- The in-memory form of `groups.json`: chat id (stringified) to entry. -/
abbrev Groups := List (String × GroupEntry)

/-- Python `groups[k] = v` on the embedded dict: replace the entry of an
existing key, else append a new binding at the end. -/
def dictSet : Groups → String → GroupEntry → Groups
  | [], k, v => [(k, v)]
  | p :: rest, k, v => if p.1 = k then (k, v) :: rest else p :: dictSet rest k v

/-- Python `groups.get(k)` on the embedded dict. -/
def dictLookup : Groups → String → Option GroupEntry
  | [], _ => none
  | p :: rest, k => if p.1 = k then some p.2 else dictLookup rest k

/-- Number of bindings a key has in the embedded dict. -/
def keyCount (g : Groups) (k : String) : Nat :=
  g.countP (fun p => p.1 == k)

/-- src/main.py `add_group(chat_id, chat_title)`: load the dict, assign
`groups[str(chat_id)] = {"title": chat_title, "added_at": datetime.now().isoformat()}`,
save.  `now` stands for the wall-clock reading taken during this call. -/
def add_group (now : Nat) (g : Groups) (chat_id : Int) (chat_title : String) : Groups :=
  dictSet g (toString chat_id) ⟨chat_title, now⟩

/-! ### Registry lemmas -/

theorem dictLookup_dictSet (g : Groups) (k : String) (v : GroupEntry) :
    dictLookup (dictSet g k v) k = some v := by
  induction g with
  | nil => simp [dictSet, dictLookup]
  | cons p rest ih =>
      by_cases h : p.1 = k
      · simp [dictSet, dictLookup, h]
      · simp [dictSet, dictLookup, h, ih]

theorem keyCount_dictSet (g : Groups) (k : String) (v : GroupEntry) :
    keyCount (dictSet g k v) k = max 1 (keyCount g k) := by
  induction g with
  | nil =>
      simp [dictSet, keyCount]
  | cons p rest ih =>
      by_cases h : p.1 = k
      · have hpk : (p.1 == k) = true := by simpa using h
        unfold keyCount at ih ⊢
        simp only [dictSet, if_pos h, List.countP_cons, hpk, beq_self_eq_true,
          if_true]
        omega
      · have hpk : (p.1 == k) = false := by simpa using h
        unfold keyCount at ih ⊢
        simp only [dictSet, if_neg h, List.countP_cons, hpk, Bool.false_eq_true,
          if_false]
        omega

theorem keyCount_le_one_of_nodup (g : Groups) (k : String)
    (h : (g.map Prod.fst).Nodup) : keyCount g k ≤ 1 := by
  induction g with
  | nil => simp [keyCount]
  | cons p rest ih =>
      simp only [List.map_cons, List.nodup_cons] at h
      have hrest : keyCount rest k ≤ 1 := ih h.2
      unfold keyCount at hrest ⊢
      rw [List.countP_cons]
      by_cases hk : p.1 = k
      · have hzero : List.countP (fun q => q.1 == k) rest = 0 := by
          rw [List.countP_eq_zero]
          intro q hq hqk
          have hq1 : q.1 = k := by simpa using hqk
          exact h.1 ((hq1.trans hk.symm) ▸ List.mem_map_of_mem Prod.fst hq)
        have hpk : (p.1 == k) = true := by simpa using hk
        simp only [hzero, hpk, if_true]
        omega
      · have hpk : (p.1 == k) = false := by simpa using hk
        simp only [hpk, Bool.false_eq_true, if_false]
        omega

/-! ### Substring lemmas -/

theorem charsContain_nil (e : List Char) : charsContain [] e = true := by
  cases e <;> simp [charsContain, charsStartWith]

theorem charsStartWith_refl : ∀ n : List Char, charsStartWith n n = true := by
  intro n
  induction n with
  | nil => rfl
  | cons b bs ih => simp [charsStartWith, ih]

theorem charsStartWith_append (n : List Char) :
    ∀ h e : List Char, charsStartWith h n = true → charsStartWith (h ++ e) n = true := by
  induction n with
  | nil =>
      intro h e _
      simp [charsStartWith]
  | cons b bs ih =>
      intro h e hs
      cases h with
      | nil => simp [charsStartWith] at hs
      | cons a as =>
          simp only [charsStartWith, Bool.and_eq_true] at hs
          simp only [List.cons_append, charsStartWith, Bool.and_eq_true]
          exact ⟨hs.1, ih as e hs.2⟩

theorem charsContain_refl (n : List Char) : charsContain n n = true := by
  cases n with
  | nil => rfl
  | cons b bs => simp [charsContain, charsStartWith_refl]

theorem charsContain_append_left (n : List Char) :
    ∀ h e : List Char, charsContain n h = true → charsContain n (h ++ e) = true := by
  intro h
  induction h with
  | nil =>
      intro e hc
      cases n with
      | nil => exact charsContain_nil e
      | cons b bs => simp [charsContain] at hc
  | cons a as ih =>
      intro e hc
      simp only [charsContain, Bool.or_eq_true] at hc
      simp only [List.cons_append, charsContain, Bool.or_eq_true]
      cases hc with
      | inl hs =>
          left
          have := charsStartWith_append n (a :: as) e hs
          simpa using this
      | inr hcc => exact Or.inr (ih e hcc)

theorem charsContain_append_right (n : List Char) :
    ∀ h e : List Char, charsContain n e = true → charsContain n (h ++ e) = true := by
  intro h
  induction h with
  | nil => intro e hc; simpa using hc
  | cons a as ih =>
      intro e hc
      simp only [List.cons_append, charsContain, Bool.or_eq_true]
      exact Or.inr (ih e hc)

theorem strContains_append_left (h e n : String) (hc : strContains h n = true) :
    strContains (h ++ e) n = true := by
  unfold strContains at hc ⊢
  have hd : (h ++ e).toList = h.toList ++ e.toList := by
    simp [String.toList]
  rw [hd]
  exact charsContain_append_left _ _ _ hc

theorem strContains_append_right (h e n : String) (hc : strContains e n = true) :
    strContains (h ++ e) n = true := by
  unfold strContains at hc ⊢
  have hd : (h ++ e).toList = h.toList ++ e.toList := by
    simp [String.toList]
  rw [hd]
  exact charsContain_append_right _ _ _ hc

theorem strContains_refl (n : String) : strContains n n = true :=
  charsContain_refl n.toList

theorem strContains_middle (a n b : String) : strContains (a ++ n ++ b) n = true := by
  apply strContains_append_left
  apply strContains_append_right
  exact strContains_refl n

/-! ## Claim C1: idempotence of the registry upsert -/

/-- C1 counterexample: calling `add_group` twice for chat id 5 (first at time 0
with name "A", then at time 1 with name "B") leaves one entry, but its
`added_at` is 1, the time of the second call — not the 0 written by the first
call, as the claim requires.  The claim as stated is therefore false at this
input. -/
theorem C1_counterexample :
    ((dictLookup (add_group 1 (add_group 0 [] 5 "A") 5 "B") "5").map GroupEntry.added_at
        = some 1)
    ∧ ¬ (keyCount (add_group 1 (add_group 0 [] 5 "A") 5 "B") "5" = 1
        ∧ (dictLookup (add_group 1 (add_group 0 [] 5 "A") 5 "B") "5").map GroupEntry.added_at
            = some 0) := by
  decide

/-- C1 (amended): `add_group` is an upsert that keeps exactly one entry per
chat id, but it is last-writer-wins on the whole entry: after a second call for
the same id the stored entry carries the second call's title and the second
call's `added_at` timestamp (re-registration overwrites `registered-at`). -/
theorem C1_upsert_last_writer_wins (g : Groups) (h : (g.map Prod.fst).Nodup)
    (id : Int) (n1 n2 : String) (t1 t2 : Nat) :
    keyCount (add_group t2 (add_group t1 g id n1) id n2) (toString id) = 1
    ∧ dictLookup (add_group t2 (add_group t1 g id n1) id n2) (toString id)
        = some ⟨n2, t2⟩ := by
  constructor
  · unfold add_group
    rw [keyCount_dictSet, keyCount_dictSet]
    have := keyCount_le_one_of_nodup g (toString id) h
    omega
  · unfold add_group
    exact dictLookup_dictSet _ _ _

/-- C1 witness: the amended statement evaluated on the empty registry with chat
id 7, names "Alpha" then "Beta", times 0 then 1. -/
theorem C1_upsert_last_writer_wins_witness :
    keyCount (add_group 1 (add_group 0 [] 7 "Alpha") 7 "Beta") (toString (7 : Int)) = 1
    ∧ dictLookup (add_group 1 (add_group 0 [] 7 "Alpha") 7 "Beta") (toString (7 : Int))
        = some ⟨"Beta", 1⟩ :=
  C1_upsert_last_writer_wins [] (by simp) 7 "Alpha" "Beta" 0 1

/-! ## ResponderClient (src/api.py: OpenRouterAPI.get_ai_response)

The single `requests.post` is embedded by an `ApiOutcome` parameter describing
what the HTTP layer delivered.  For a delivered response, `choices = none`
embeds a JSON body without a "choices" key (the code's `.get` default `[{}]`
then applies); `choices = some cs` gives per choice the `message.content`
value, with `none` embedding a choice on which the `.get("message", {})
.get("content", "")` chain yields `""`.  `raiseMsg` is the `str(e)` of the
`HTTPError` that `raise_for_status()` raises when the status is 4xx/5xx (it is
unused otherwise).  `.error ()` marks a Python exception the method does not
catch (an `IndexError` from `data.get("choices", [{}])[0]` when the body holds
an explicitly empty choices list). -/

/-- The dict returned by `get_ai_response`: success flag, optional error tag,
user-facing reply text. -/
structure AIResult where
  success : Bool
  error : Option String
  reply : String
deriving DecidableEq, Repr

/-- Outcome of the one `requests.post` call inside `get_ai_response`. -/
inductive ApiOutcome where
  | response (status : Nat) (choices : Option (List (Option String))) (raiseMsg : String)
  | timeoutExn
  | requestExn (msg : String)
deriving DecidableEq, Repr

/-- Fixed fallback reply for HTTP 429/402 or a quota-phrase transport error. -/
def rateLimitReply : String := "Now I am Sleepy 💤😴 ask Tomorrow"

/-- Fixed fallback reply for a request timeout. -/
def timeoutReply : String := "I\x27m thinking too slow right now. Try again!"

/-- Fixed fallback reply when no non-empty text is extracted from a success. -/
def emptyReply : String := "I\x27m having trouble thinking right now. Try again!"

/-- Fixed fallback reply for any other transport failure. -/
def genericReply : String := "Something went wrong. Please try again later."

/-- Fixed reply when the API key is not configured. -/
def configErrorReply : String := "Configuration error. Please contact the administrator."

/-- Result dict for the rate-limited / quota-exhausted case. -/
def rateLimitResult : AIResult := ⟨false, some "rate_limit", rateLimitReply⟩

/-- Result dict for the timeout case. -/
def timeoutResult : AIResult := ⟨false, some "timeout", timeoutReply⟩

/-- Result dict for the empty-response case. -/
def emptyResult : AIResult := ⟨false, some "empty_response", emptyReply⟩

/-- Result dict for the missing-API-key case. -/
def configErrorResult : AIResult := ⟨false, some "API key not configured", configErrorReply⟩

/-- The `except requests.exceptions.RequestException` handler: a "429" or
"quota" phrase in the error text maps to the rate-limit fallback, anything
else to the generic fallback carrying `str(e)` in the error field. -/
def handleRequestExn (msg : String) : AIResult :=
  if strContains msg "429" || strContains (pyLower msg) "quota" then rateLimitResult
  else ⟨false, some msg, genericReply⟩

/-- src/api.py `OpenRouterAPI.get_ai_response`, embedded over the outcome of
its single HTTP post.  `apiKey` is `os.getenv("OPENROUTER_API_KEY")`. -/
def get_ai_response (apiKey : Option String) (o : ApiOutcome) : Except Unit AIResult :=
  if pyTruthy apiKey = false then .ok configErrorResult
  else
    match o with
    | .timeoutExn => .ok timeoutResult
    | .requestExn msg => .ok (handleRequestExn msg)
    | .response status choices raiseMsg =>
        if status = 429 ∨ status = 402 then .ok rateLimitResult
        else if 400 ≤ status ∧ status ≤ 599 then .ok (handleRequestExn raiseMsg)
        else
          match choices with
          | some [] => .error ()
          | none => .ok emptyResult
          | some (c :: _) =>
              let ai_reply := c.getD ""
              if ai_reply = "" then .ok emptyResult
              else .ok ⟨true, none, pyStrip ai_reply⟩

/-- Number of HTTP posts one `get_ai_response` invocation performs (there is
no retry loop in the method). -/
def ai_post_count (apiKey : Option String) : Nat :=
  if pyTruthy apiKey then 1 else 0

/-- Every `.ok` result of `get_ai_response` with a configured key is a success,
one of the three specific fallback dicts, or a generic-fallback dict whose
reply text is the fixed generic string — never a raw transport error text. -/
theorem ai_ok_shapes (k : String) (hk : k ≠ "") (o : ApiOutcome) (r : AIResult)
    (hor : get_ai_response (some k) o = .ok r) :
    r.success = true ∨ r = rateLimitResult ∨ r = timeoutResult ∨ r = emptyResult
    ∨ (∃ m, r = ⟨false, some m, genericReply⟩) := by
  have hkt : pyTruthy (some k) = true := by simp [pyTruthy, hk]
  cases o with
  | timeoutExn =>
      simp [get_ai_response, hkt] at hor
      subst hor
      simp
  | requestExn m =>
      simp [get_ai_response, hkt] at hor
      subst hor
      unfold handleRequestExn
      by_cases hq : (strContains m "429" || strContains (pyLower m) "quota") = true
      · simp [hq]
      · simp [hq]
  | response st ch m =>
      simp only [get_ai_response, hkt, Bool.true_eq_false, if_false] at hor
      by_cases h1 : st = 429 ∨ st = 402
      · rw [if_pos h1] at hor
        simp at hor
        subst hor
        simp
      · rw [if_neg h1] at hor
        by_cases h2 : 400 ≤ st ∧ st ≤ 599
        · rw [if_pos h2] at hor
          simp at hor
          subst hor
          unfold handleRequestExn
          by_cases hq : (strContains m "429" || strContains (pyLower m) "quota") = true
          · simp [hq]
          · simp [hq]
        · rw [if_neg h2] at hor
          match ch with
          | some [] => simp at hor
          | none =>
              simp at hor
              subst hor
              simp
          | some (c :: cs) =>
              simp only at hor
              by_cases he : c.getD "" = ""
              · rw [if_pos he] at hor
                simp at hor
                subst hor
                simp
              · rw [if_neg he] at hor
                simp at hor
                subst hor
                simp

/-! ## Claim C3: ResponderClient failure mapping -/

/-- C3 counterexample: with a configured key, a successful (status 200) call
whose body carries an explicitly empty `choices` list raises an uncaught
`IndexError` (`data.get("choices", [{}])[0]`) instead of returning the
EmptyResponse fallback, so "a successful call from which no non-empty text can
be extracted yields the EmptyResponse fallback text" is false at this input. -/
theorem C3_counterexample :
    get_ai_response (some "key") (.response 200 (some []) "") = .error ()
    ∧ get_ai_response (some "key") (.response 200 (some []) "") ≠ .ok emptyResult := by
  constructor
  · rfl
  · simp [get_ai_response, pyTruthy]

/-- C3 (amended): with a configured key, `get_ai_response` maps each failure of
its single HTTP post to its fixed fallback reply — 429/402 to the RateLimited
text, a timeout to the Timeout text, a success whose body lacks a choices
field or whose first choice has empty content to the EmptyResponse text, a
raised 4xx/5xx status and any other transport error through the
429/quota-phrase check to the RateLimited or generic text — performs at most
one post (no retry), and never surfaces a raw transport error as the reply;
the one exception to the claim is a success body with an explicitly empty
choices list, which raises instead of yielding the EmptyResponse fallback. -/
theorem C3_failure_mapping (k : String) (hk : k ≠ "") :
    (∀ st ch m, (st = 429 ∨ st = 402) →
        get_ai_response (some k) (.response st ch m) = .ok rateLimitResult)
    ∧ get_ai_response (some k) .timeoutExn = .ok timeoutResult
    ∧ (∀ st m, st ≠ 429 → st ≠ 402 → st < 400 →
        get_ai_response (some k) (.response st none m) = .ok emptyResult)
    ∧ (∀ st m cs, st ≠ 429 → st ≠ 402 → st < 400 →
        get_ai_response (some k) (.response st (some (none :: cs)) m) = .ok emptyResult)
    ∧ (∀ st m cs, st ≠ 429 → st ≠ 402 → st < 400 →
        get_ai_response (some k) (.response st (some (some "" :: cs)) m) = .ok emptyResult)
    ∧ (∀ m, (strContains m "429" || strContains (pyLower m) "quota") = true →
        get_ai_response (some k) (.requestExn m) = .ok rateLimitResult)
    ∧ (∀ m, (strContains m "429" || strContains (pyLower m) "quota") = false →
        get_ai_response (some k) (.requestExn m) = .ok ⟨false, some m, genericReply⟩)
    ∧ (∀ st ch m, ¬ (st = 429 ∨ st = 402) → 400 ≤ st → st ≤ 599 →
        get_ai_response (some k) (.response st ch m) = .ok (handleRequestExn m))
    ∧ (∀ o r, get_ai_response (some k) o = .ok r → r.success = false →
        r.reply = rateLimitReply ∨ r.reply = timeoutReply ∨ r.reply = emptyReply
          ∨ r.reply = genericReply)
    ∧ ai_post_count (some k) ≤ 1 := by
  have hkt : pyTruthy (some k) = true := by simp [pyTruthy, hk]
  refine ⟨?_, ?_, ?_, ?_, ?_, ?_, ?_, ?_, ?_, ?_⟩
  · intro st ch m h
    simp [get_ai_response, hkt, if_pos h]
  · simp [get_ai_response, hkt]
  · intro st m h1 h2 h3
    have hn : ¬ (st = 429 ∨ st = 402) := by omega
    have hn2 : ¬ (400 ≤ st ∧ st ≤ 599) := by omega
    simp [get_ai_response, hkt, if_neg hn, if_neg hn2]
  · intro st m cs h1 h2 h3
    have hn : ¬ (st = 429 ∨ st = 402) := by omega
    have hn2 : ¬ (400 ≤ st ∧ st ≤ 599) := by omega
    simp [get_ai_response, hkt, if_neg hn, if_neg hn2]
  · intro st m cs h1 h2 h3
    have hn : ¬ (st = 429 ∨ st = 402) := by omega
    have hn2 : ¬ (400 ≤ st ∧ st ≤ 599) := by omega
    simp [get_ai_response, hkt, if_neg hn, if_neg hn2]
  · intro m hq
    simp [get_ai_response, hkt, handleRequestExn, hq]
  · intro m hq
    simp [get_ai_response, hkt, handleRequestExn, hq]
  · intro st ch m h1 h2 h3
    have h4 : 400 ≤ st ∧ st ≤ 599 := ⟨h2, h3⟩
    simp [get_ai_response, hkt, if_neg h1, if_pos h4]
  · intro o r hor hsucc
    rcases ai_ok_shapes k hk o r hor with h | h | h | h | ⟨m, h⟩
    · rw [hsucc] at h
      exact absurd h (by simp)
    · subst h; left; rfl
    · subst h; right; left; rfl
    · subst h; right; right; left; rfl
    · subst h; right; right; right; rfl
  · simp [ai_post_count, hkt]

/-- C3 witness: the amended mapping evaluated at concrete inputs — key "k",
a 429 response, a timeout, and a keyless-content success body. -/
theorem C3_failure_mapping_witness :
    get_ai_response (some "k") (.response 429 none "") = .ok rateLimitResult
    ∧ get_ai_response (some "k") .timeoutExn = .ok timeoutResult
    ∧ get_ai_response (some "k") (.response 200 none "") = .ok emptyResult := by
  have h := C3_failure_mapping "k" (by decide)
  exact ⟨h.1 429 none "" (Or.inl rfl), h.2.1,
    h.2.2.1 200 "" (by decide) (by decide) (by decide)⟩

/-! ## News formatting (src/main.py: fetch_news_newsapi / format_news_section /
format_news_message)

`fetch_news_newsapi` catches every exception and returns `[]`, so its outcome
is embedded directly as the article list it hands to the formatter (failure or
an empty result set both give `[]`).  The articles are dicts; each `.get` with
a default is embedded by an `Option` field. -/

/-- One NewsAPI article as consumed by `format_news_section` (`title`,
`url`, `source.name`, each possibly missing). -/
structure Article where
  title : Option String
  url : Option String
  sourceName : Option String
deriving DecidableEq, Repr

/-- The chained `str.replace` escaping in `format_news_section`, per char:
underscore, asterisk, opening bracket and backtick get a backslash. -/
def escChar (c : Char) : String :=
  if c = '_' then "\\_"
  else if c = '*' then "\\*"
  else if c = '[' then "\\["
  else if c.toNat = 96 then "\\" ++ String.singleton c
  else String.singleton c

/-- Escape a title for MarkdownV2 as the source does. -/
def escapeMd (s : String) : String :=
  String.join (s.toList.map escChar)

/-- `title_text[:97] + "..."` when the escaped title exceeds 100 chars. -/
def truncateTitle (t : String) : String :=
  if t.length > 100 then (t.toList.take 97).asString ++ "..." else t

/-- One numbered article line of a news section. -/
def renderArticle (i : Nat) (a : Article) : String :=
  toString i ++ "\\. *" ++ a.sourceName.getD "Unknown" ++ "*\n   "
    ++ truncateTitle (escapeMd (a.title.getD "No title")) ++ "\n   🔗 [Read more]("
    ++ a.url.getD "" ++ ")\n\n"

/-- The enumerated article lines of a section (`enumerate(articles, 1)`). -/
def renderArticles (articles : List Article) : String :=
  String.join ((List.enumFrom 1 articles).map fun p => renderArticle p.1 p.2)

/-- The fixed placeholder body used when a section has no articles. -/
def newsSectionPlaceholder : String := "No recent news available 📭\n\n"

/-- The `"{emoji} *{title}* {emoji}\n\n"` header of a news section. -/
def sectionHeader (title emoji : String) : String :=
  emoji ++ " *" ++ title ++ "* " ++ emoji ++ "\n\n"

/-- src/main.py `format_news_section(title, emoji, articles)`. -/
def format_news_section (title emoji : String) (articles : List Article) : String :=
  sectionHeader title emoji
    ++ (if articles.isEmpty then newsSectionPlaceholder else renderArticles articles)

/-- The `"━━━ ... ━━━\n\n"` separator line. -/
def newsSeparator : String := "━━━━━━━━━━━━━━━━━━━━━\n\n"

/-- src/main.py `format_news_message()`, over the formatted IST time string and
the three fetched article lists (a failed or empty fetch contributes `[]`). -/
def format_news_message (timeStr : String)
    (crypto india world : List Article) : String :=
  "🌅 *GOOD MORNING\\! DAILY NEWS ROUNDUP* 🌅\n" ++ "📅 _" ++ timeStr ++ "_\n"
    ++ newsSeparator
    ++ format_news_section "CRYPTO NEWS" "💰" crypto ++ newsSeparator
    ++ format_news_section "INDIA NEWS" "🇮🇳" india ++ newsSeparator
    ++ format_news_section "WORLD NEWS" "🌍" world ++ newsSeparator
    ++ "_Stay informed, stay smooth\\!_ ✨"

/-! ## ContentProvider (src/api.py: NewsAPI)

Both static methods catch every exception; the fetch outcome is a parameter
(`none` embeds any raised error — network failure or malformed payload). -/

/-- One trending coin as consumed by `get_crypto_news` (`item.name`,
`item.symbol`, `item.market_cap_rank`, each possibly missing). -/
structure TrendCoin where
  name : Option String
  symbol : Option String
  rank : Option Nat
deriving DecidableEq, Repr

/-- Fixed fallback text when the trending fetch raises. -/
def cryptoFailText : String :=
  "📰 Crypto News: Unable to fetch latest headlines. Check CoinGecko or CoinDesk for updates!"

/-- Fixed fallback text when the trending list is empty. -/
def cryptoEmptyText : String :=
  "📰 Crypto News: Markets are moving! Stay updated with your favorite crypto sources."

/-- `market_cap_rank` display: the number, or the `"N/A"` default. -/
def rankStr : Option Nat → String
  | some n => toString n
  | none => "N/A"

/-- One numbered line of the trending list. -/
def renderCoin (p : Nat × TrendCoin) : String :=
  toString p.1 ++ ". " ++ p.2.name.getD "Unknown" ++ " ("
    ++ pyUpper (p.2.symbol.getD "") ++ ") - Rank #" ++ rankStr p.2.rank ++ "\n"

/-- src/api.py `NewsAPI.get_crypto_news()`, over the fetch outcome (`none` =
any exception; `some coins` = the parsed `coins` array). -/
def get_crypto_news (r : Option (List TrendCoin)) : String :=
  match r with
  | none => cryptoFailText
  | some coins =>
      let trending := coins.take 5
      if trending.isEmpty then cryptoEmptyText
      else "📰 *Trending Cryptocurrencies Today:*\n\n"
        ++ String.join ((List.enumFrom 1 trending).map renderCoin)

/-- The four fixed fallback quotes `random.choice` picks from. -/
def quoteFallbacks : List String :=
  ["💫 \"The future belongs to those who believe in the beauty of their dreams.\" — Eleanor Roosevelt",
   "💫 \"Success is not final, failure is not fatal: it is the courage to continue that counts.\" — Winston Churchill",
   "💫 \"Believe you can and you\x27re halfway there.\" — Theodore Roosevelt",
   "💫 \"The only way to do great work is to love what you do.\" — Steve Jobs"]

/-- src/api.py `NewsAPI.get_motivational_quote()`, over the fetch outcome
(`none` = any exception; `some data` = the parsed JSON array, each element
giving its `q` and `a` fields) and the index `random.choice` draws. -/
def get_motivational_quote (r : Option (List (Option String × Option String)))
    (i : Fin 4) : String :=
  match r with
  | some (d :: _) =>
      "💫 *Quote of the Day:*\n\n\"" ++ d.1.getD "" ++ "\"\n\n— " ++ d.2.getD "Unknown"
  | _ => quoteFallbacks.get (Fin.cast rfl i)

/-- src/server.py `SmoothBot.generate_daily_message()` before the final
`strip()`: the f-string template with the two section slots. -/
def dailyTemplate (quote crypto : String) : String :=
  "\nüåü *Good Evening! Your Daily Update from Smooth* üåü\n\n" ++ quote
    ++ "\n\n---\n\n" ++ crypto ++ "\n\n---\n\nHave a wonderful evening! üöÄ\n"

/-- src/server.py `SmoothBot.generate_daily_message()`, over the two fetch
outcomes and the random fallback-quote index. -/
def generate_daily_message (qr : Option (List (Option String × Option String)))
    (i : Fin 4) (cr : Option (List TrendCoin)) : String :=
  pyStrip (dailyTemplate (get_motivational_quote qr i) (get_crypto_news cr))

/-! ## DispatchEngine (src/main.py: handle_message)

The handler is embedded as a pure function from the inbound message, the
current registry contents and an environment describing every external
outcome (clock, news fetches, Telegram `get_file`, the OpenRouter call) to the
new registry contents, the ordered trace of outbound/effect calls it performs,
the dispatch decision it reached and whether an uncaught exception escaped. -/

/-- Telegram chat types distinguished by the handler. -/
inductive TgChatType where
  | group
  | supergroup
  | privateChat
  | channel
deriving DecidableEq, Repr

/-- `chat.type in [ChatType.GROUP, ChatType.SUPERGROUP]`. -/
def isGroupType : TgChatType → Bool
  | .group => true
  | .supergroup => true
  | _ => false

/-- The fields of one inbound Telegram update the handler reads.
`replyToBot` embeds `reply_to_message and reply_to_message.from_user.id ==
context.bot.id`. -/
structure InMsg where
  chatType : TgChatType
  chatId : Int
  chatTitle : String
  text : Option String
  caption : Option String
  hasPhoto : Bool
  replyToBot : Bool
deriving DecidableEq, Repr

/-- Outcome of `call_openrouter`'s HTTP post: a 429 status, a delivered body
(`none` embeds a body without the `choices[0].message.content` keys, on which
the direct indexing raises an uncaught error), or a caught
`RequestException` (any other error status or transport failure). -/
inductive OrOutcome where
  | http429
  | okBody (content : Option String)
  | reqErr
deriving DecidableEq, Repr

/-- External-world outcomes the handler consumes, fixed per invocation. -/
structure BotEnv where
  username : String
  now : Nat
  timeStr : String
  crypto : List Article
  india : List Article
  world : List Article
  getFile : Option String
  openrouter : OrOutcome
deriving DecidableEq, Repr

/-- One effect call the handler performs, in order. -/
inductive Call where
  | registryUpsert (chatId : Int) (title : String)
  | sendReply (text : String)
  | contentFetch (query : String)
  | responder (userText : String) (image : Option String)
deriving DecidableEq, Repr

/-- Is this call the OpenRouter (ResponderClient) call? -/
def Call.isResponderCall : Call → Bool
  | .responder _ _ => true
  | _ => false

/-- Is this call a news-source (ContentProvider) fetch? -/
def Call.isContentFetch : Call → Bool
  | .contentFetch _ => true
  | _ => false

/-- Is this call a registry write? -/
def Call.isRegistryWrite : Call → Bool
  | .registryUpsert _ _ => true
  | _ => false

/-- The ResponderClient calls of a trace, with their text and image payloads. -/
def respondersOf (tr : List Call) : List (String × Option String) :=
  tr.filterMap fun c =>
    match c with
    | .responder t i => some (t, i)
    | _ => none

/-- The dispatch decision of the spec's DispatchEngine. -/
inductive Decision where
  | Silence
  | NewsReply
  | ModelReply
deriving DecidableEq, Repr

/-- Result of one embedded handler invocation. -/
structure HandleResult where
  groups : Groups
  trace : List Call
  decision : Decision
  raised : Bool
deriving DecidableEq, Repr

/-- main.py `BOT_NAME`. -/
def mainBotName : String := "smooth"

/-- The fixed news-intent keyword list of the handler. -/
def newsKeywords : List String :=
  ["news", "headlines", "updates", "latest news", "whats happening",
   "what\x27s happening"]

/-- The handler's mention test: bot name or `@username` as a case-insensitive
substring, or a reply to one of the bot's own messages. -/
def mentionedIn (msgText username : String) (replyToBot : Bool) : Bool :=
  strContains (pyLower msgText) (pyLower mainBotName)
    || strContains (pyLower msgText) (pyLower ("@" ++ username))
    || replyToBot

/-- The handler's news-intent test: any keyword as substring of the lowered
text. -/
def is_news_request (msgText : String) : Bool :=
  newsKeywords.any fun kw => strContains (pyLower msgText) kw

/-- Fallback sent when `call_openrouter` reports a 429. -/
def mainRateReply : String := "Bit exhausted 😩 right now try again shortly"

/-- Fallback sent when `call_openrouter` returns no content. -/
def mainGenericReply : String := "Oops! Something went wrong 😅 Try again?"

/-- The acknowledgement sent before an on-demand news fetch. -/
def newsIntroReply : String := "Let me fetch the latest news for you! 🔍📰"

/-- The canned prompt substituted for an image without text. -/
def cannedImagePrompt : String := "What\x27s in this image? Describe it for me."

/-- The three NewsAPI queries of `format_news_message`, in call order. -/
def newsQueries : List String :=
  ["cryptocurrency OR bitcoin OR ethereum OR crypto", "India",
   "world OR international OR global NOT India NOT crypto"]

/-- The text/caption extraction `update.message.text or update.message.caption
or ""`. -/
def extractText (m : InMsg) : String :=
  pyOrStr (m.text.getD "") (m.caption.getD "")

/-- The user text and image reference passed to `call_openrouter` after the
photo-handling block: when a photo is present and `get_file` succeeds, an
empty text or a text that is exactly the bot name (case-insensitively) is
replaced by the canned prompt and the file path is attached; when `get_file`
raises, the text is left unchanged and no image is attached. -/
def modelInput (env : BotEnv) (m : InMsg) : String × Option String :=
  let msgText := extractText m
  if m.hasPhoto then
    match env.getFile with
    | some path =>
        ((if msgText = "" ∨ pyLower mainBotName = pyLower msgText
          then cannedImagePrompt else msgText), some path)
    | none => (msgText, none)
  else (msgText, none)

/-- The dispatch part of src/main.py `handle_message` after the
group-membership tracking (which precedes it and which it never reads):
the effect-call suffix it performs, the decision reached, and whether an
uncaught exception escaped. -/
def dispatchCore (env : BotEnv) (m : InMsg) : List Call × Decision × Bool :=
  let msgText := extractText m
  if mentionedIn msgText env.username m.replyToBot = false then
    ([], .Silence, false)
  else if is_news_request msgText then
    let nm := format_news_message env.timeStr env.crypto env.india env.world
    ([.sendReply newsIntroReply] ++ newsQueries.map Call.contentFetch
        ++ [.sendReply nm],
      .NewsReply, false)
  else
    let pair := modelInput env m
    let tr2 := [Call.responder pair.1 pair.2]
    match env.openrouter with
    | .http429 => (tr2 ++ [.sendReply mainRateReply], .ModelReply, false)
    | .okBody none => (tr2, .ModelReply, true)
    | .okBody (some c) =>
        if c = "" then (tr2 ++ [.sendReply mainGenericReply], .ModelReply, false)
        else (tr2 ++ [.sendReply c], .ModelReply, false)
    | .reqErr => (tr2 ++ [.sendReply mainGenericReply], .ModelReply, false)

/-- src/main.py `handle_message(update, context)`: track group membership
first (unconditionally for group-type chats), then dispatch. -/
def handle_message (env : BotEnv) (m : InMsg) (groups : Groups) : HandleResult :=
  let reg := isGroupType m.chatType
  ⟨if reg then add_group env.now groups m.chatId m.chatTitle else groups,
   (if reg then [Call.registryUpsert m.chatId m.chatTitle] else [])
     ++ (dispatchCore env m).1,
   (dispatchCore env m).2.1,
   (dispatchCore env m).2.2⟩

/-! ## SmoothBot and the HTTP endpoint (src/server.py) -/

/-- server.py `BOT_NAME`. -/
def serverBotName : String := "Smooth"

namespace SmoothBot

/-- server.py `SmoothBot.should_respond(message)`. -/
def should_respond (message : String) : Bool :=
  if message = "" then false
  else strContains (pyLower message) (pyLower serverBotName)

/-- server.py `SmoothBot.process_message(message)`: the empty string encodes
the silent no-response path; the Bool records whether the OpenRouter call was
made.  An uncaught exception inside `get_ai_response` propagates. -/
def process_message (apiKey : Option String) (o : ApiOutcome) (message : String) :
    Except Unit (String × Bool) :=
  if should_respond message = false then .ok ("", false)
  else
    match get_ai_response apiKey o with
    | .error e => .error e
    | .ok r => .ok (r.reply, true)

end SmoothBot

/-- A JSON value of the request body's "message" field: a string, or any
non-string value (on which `.strip()` raises). -/
inductive JsonVal where
  | str (s : String)
  | other
deriving DecidableEq, Repr

/-- Association-list lookup on the embedded JSON object. -/
def jsonLookup : List (String × JsonVal) → String → Option JsonVal
  | [], _ => none
  | p :: rest, k => if p.1 = k then some p.2 else jsonLookup rest k

/-- Result of one request to the `/message` route: HTTP status, the "reply"
field when the route answers 200, and whether the OpenRouter call was made. -/
structure RouteResult where
  status : Nat
  reply : Option String
  modelCalled : Bool
deriving DecidableEq, Repr

namespace ServerApp

/-- server.py's Flask route `handle_message()` for `POST /message`.  `body`
is the parsed JSON object (`none` embeds an absent or unparseable body, on
which `request.get_json()` yields no dict).  Exceptions inside the `try` are
caught by the route's `except` and answered with status 500. -/
def handle_message (apiKey : Option String) (o : ApiOutcome)
    (body : Option (List (String × JsonVal))) : RouteResult :=
  match body with
  | none => ⟨400, none, false⟩
  | some data =>
      if data = [] then ⟨400, none, false⟩
      else
        match jsonLookup data "message" with
        | none => ⟨400, none, false⟩
        | some .other => ⟨500, none, false⟩
        | some (.str s0) =>
            let user_message := pyStrip s0
            if user_message = "" then ⟨400, none, false⟩
            else
              match SmoothBot.process_message apiKey o user_message with
              | .error _ => ⟨500, none, true⟩
              | .ok (reply, called) => ⟨200, some reply, called⟩

end ServerApp

/-! ## Startup (src/main.py main(), src/server.py __main__) -/

/-- What a startup run left running. -/
structure StartupState where
  handlersRegistered : Bool
  schedulerStarted : Bool
  serving : Bool
deriving DecidableEq, Repr

/-- src/main.py `main()`: each required credential is checked before any
handler or the daily-news job is registered; a falsy `TELEGRAM_TOKEN` or
`OPENROUTER_API_KEY` returns immediately (a missing `NEWS_API_KEY` only
logs a warning). -/
def main_startup (telegramToken openrouterKey _newsKey : Option String) :
    StartupState :=
  if pyTruthy telegramToken = false then ⟨false, false, false⟩
  else if pyTruthy openrouterKey = false then ⟨false, false, false⟩
  else ⟨true, true, true⟩

/-- src/server.py `__main__`: the scheduler is initialized and the Flask app
started unconditionally — no credential is checked at startup. -/
def server_startup (_openrouterKey : Option String) : StartupState :=
  ⟨true, true, true⟩

/-! ## BroadcastScheduler tick (src/main.py: send_daily_news)

The per-chat loop body sits inside `try/except Exception`, and the pin sits in
a nested `try/except`.  Send and pin outcomes are embedded as functions of the
chat id (and message id); every caught failure becomes a logged event, so the
tick is a total function and `.ok` marks that it returns without raising. -/

/-- Outcome of `context.bot.send_message` for one chat. -/
inductive SendOutcome where
  | ok (msgId : Nat)
  | err
deriving DecidableEq, Repr

/-- Outcome of `context.bot.pin_chat_message` for one chat. -/
inductive PinOutcome where
  | ok
  | err
deriving DecidableEq, Repr

/-- One logged delivery event of a broadcast tick. -/
inductive TickEvent where
  | sent (chatId : String) (msgId : Nat)
  | sendFailed (chatId : String)
  | pinned (chatId : String) (msgId : Nat)
  | pinFailed (chatId : String) (msgId : Nat)
deriving DecidableEq, Repr

/-- The loop body of `send_daily_news` for one registry entry: attempt the
send; on failure log and move on; after a successful send attempt the pin,
whose failure is logged separately and never undoes the send. -/
def deliverOne (send : String → SendOutcome) (pin : String → Nat → PinOutcome)
    (cid : String) : List TickEvent :=
  match send cid with
  | .err => [.sendFailed cid]
  | .ok mid =>
      .sent cid mid ::
        (match pin cid mid with
         | .ok => [.pinned cid mid]
         | .err => [.pinFailed cid mid])

/-- The events of one full tick over the registry (empty registry: log a
warning and return). -/
def tickEvents (groups : Groups) (send : String → SendOutcome)
    (pin : String → Nat → PinOutcome) : List TickEvent :=
  if groups.isEmpty then []
  else (groups.map Prod.fst).flatMap (deliverOne send pin)

/-- src/main.py `send_daily_news(context)`: the tick always returns normally
(`.ok`), since every raising operation is inside a `try`. -/
def send_daily_news (groups : Groups) (send : String → SendOutcome)
    (pin : String → Nat → PinOutcome) : Except Unit (List TickEvent) :=
  .ok (tickEvents groups send pin)

/-- Number of delivery attempts (successful or failed sends) a tick logged for
one chat id. -/
def attemptsFor (cid : String) (evts : List TickEvent) : Nat :=
  evts.countP fun e =>
    match e with
    | .sent c _ => c == cid
    | .sendFailed c => c == cid
    | _ => false

/-- Number of successful sends a tick logged for one chat id. -/
def sendsFor (cid : String) (evts : List TickEvent) : Nat :=
  evts.countP fun e =>
    match e with
    | .sent c _ => c == cid
    | _ => false

theorem attemptsFor_deliverOne (send : String → SendOutcome)
    (pin : String → Nat → PinOutcome) (c cid : String) :
    attemptsFor cid (deliverOne send pin c) = if c == cid then 1 else 0 := by
  by_cases hc : (c == cid) = true
  · cases hs : send c with
    | err => simp [attemptsFor, deliverOne, hs, hc]
    | ok mid =>
        cases hp : pin c mid <;>
          simp [attemptsFor, deliverOne, hs, hp, hc]
  · simp only [Bool.not_eq_true] at hc
    cases hs : send c with
    | err => simp [attemptsFor, deliverOne, hs, hc]
    | ok mid =>
        cases hp : pin c mid <;>
          simp [attemptsFor, deliverOne, hs, hp, hc]

theorem sendsFor_deliverOne (send : String → SendOutcome)
    (pin : String → Nat → PinOutcome) (c cid : String) :
    sendsFor cid (deliverOne send pin c)
      = if (c == cid) = true then
          (match send c with | .ok _ => 1 | .err => 0)
        else 0 := by
  by_cases hc : (c == cid) = true
  · cases hs : send c with
    | err => simp [sendsFor, deliverOne, hs, hc]
    | ok mid =>
        cases hp : pin c mid <;>
          simp [sendsFor, deliverOne, hs, hp, hc]
  · simp only [Bool.not_eq_true] at hc
    cases hs : send c with
    | err => simp [sendsFor, deliverOne, hs, hc]
    | ok mid =>
        cases hp : pin c mid <;>
          simp [sendsFor, deliverOne, hs, hp, hc]

theorem countP_flatMap_eq (p : TickEvent → Bool) (f : String → List TickEvent) :
    ∀ l : List String, (l.flatMap f).countP p = (l.map fun a => (f a).countP p).sum := by
  intro l
  induction l with
  | nil => simp
  | cons a t ih => simp [List.flatMap_cons, List.countP_append, ih]

theorem sum_if_eq_count (cid : String) :
    ∀ l : List String, (l.map fun c => if c == cid then 1 else 0).sum = l.count cid := by
  intro l
  induction l with
  | nil => simp
  | cons a t ih =>
      simp only [List.map_cons, List.sum_cons, List.count_cons, beq_iff_eq] at ih ⊢
      by_cases ha : a = cid
      · rw [if_pos ha, ih]
        omega
      · rw [if_neg ha, ih]
        omega

/-! ## Claim C4: broadcast fan-out isolates per-chat failures -/

/-- C4: for every registry contents and every pattern of send/pin outcomes,
the broadcast tick returns normally (never raises past its boundary); every
registered chat gets its delivery attempt logged — a failed send for one chat
is recorded and skipped while every other chat still gets its attempt, and a
pin failure after a successful send leaves the sent event in place; with
distinct registry keys each chat is attempted exactly once and sent to at most
once (no rollback, no retry). -/
theorem C4_fanout_isolation (groups : Groups) (send : String → SendOutcome)
    (pin : String → Nat → PinOutcome) :
    send_daily_news groups send pin = .ok (tickEvents groups send pin)
    ∧ (∀ cid, cid ∈ groups.map Prod.fst →
        (send cid = .err → TickEvent.sendFailed cid ∈ tickEvents groups send pin)
        ∧ (∀ mid, send cid = .ok mid →
            TickEvent.sent cid mid ∈ tickEvents groups send pin
            ∧ (pin cid mid = .err →
                TickEvent.pinFailed cid mid ∈ tickEvents groups send pin)))
    ∧ ((groups.map Prod.fst).Nodup →
        ∀ cid, cid ∈ groups.map Prod.fst →
          attemptsFor cid (tickEvents groups send pin) = 1
          ∧ sendsFor cid (tickEvents groups send pin) ≤ 1) := by
  have hmem : ∀ cid, cid ∈ groups.map Prod.fst → groups.isEmpty = false := by
    intro cid hcid
    cases groups with
    | nil => simp at hcid
    | cons p rest => rfl
  refine ⟨rfl, ?_, ?_⟩
  · intro cid hcid
    have hne := hmem cid hcid
    constructor
    · intro hs
      simp only [tickEvents, hne, Bool.false_eq_true, if_false]
      exact List.mem_flatMap.mpr ⟨cid, hcid, by simp [deliverOne, hs]⟩
    · intro mid hs
      constructor
      · simp only [tickEvents, hne, Bool.false_eq_true, if_false]
        exact List.mem_flatMap.mpr ⟨cid, hcid, by simp [deliverOne, hs]⟩
      · intro hp
        simp only [tickEvents, hne, Bool.false_eq_true, if_false]
        exact List.mem_flatMap.mpr ⟨cid, hcid, by simp [deliverOne, hs, hp]⟩
  · intro hnd cid hcid
    have hne := hmem cid hcid
    have h1 : tickEvents groups send pin
        = (groups.map Prod.fst).flatMap (deliverOne send pin) := by
      simp [tickEvents, hne]
    have hatt : attemptsFor cid (tickEvents groups send pin) = 1 := by
      have h2 : attemptsFor cid ((groups.map Prod.fst).flatMap (deliverOne send pin))
          = ((groups.map Prod.fst).map fun a => attemptsFor cid (deliverOne send pin a)).sum :=
        countP_flatMap_eq _ _ _
      rw [h1, h2]
      have h3 : ((groups.map Prod.fst).map fun a => attemptsFor cid (deliverOne send pin a))
          = ((groups.map Prod.fst).map fun a => if a == cid then 1 else 0) := by
        simp only [attemptsFor_deliverOne]
      rw [h3, sum_if_eq_count]
      exact List.count_eq_one_of_mem hnd hcid
    refine ⟨hatt, ?_⟩
    have hmono : sendsFor cid (tickEvents groups send pin)
        ≤ attemptsFor cid (tickEvents groups send pin) := by
      unfold sendsFor attemptsFor
      apply List.countP_mono_left
      intro e he hp
      cases e with
      | sent c mid => simpa using hp
      | sendFailed c => simp at hp
      | pinned c mid => simp at hp
      | pinFailed c mid => simp at hp
    omega

/-- C4 witness: a registry of 3 chats where delivery to chat "2" fails — the
tick completes, chats "1" and "3" still receive the broadcast, and the failure
of chat "2" is logged. -/
theorem C4_fanout_isolation_witness :
    send_daily_news [("1", ⟨"A", 0⟩), ("2", ⟨"B", 0⟩), ("3", ⟨"C", 0⟩)]
        (fun c => if c = "2" then .err else .ok 5) (fun _ _ => .ok)
      = .ok (tickEvents [("1", ⟨"A", 0⟩), ("2", ⟨"B", 0⟩), ("3", ⟨"C", 0⟩)]
          (fun c => if c = "2" then .err else .ok 5) (fun _ _ => .ok))
    ∧ TickEvent.sent "1" 5 ∈ tickEvents [("1", ⟨"A", 0⟩), ("2", ⟨"B", 0⟩), ("3", ⟨"C", 0⟩)]
        (fun c => if c = "2" then .err else .ok 5) (fun _ _ => .ok)
    ∧ TickEvent.sendFailed "2" ∈ tickEvents [("1", ⟨"A", 0⟩), ("2", ⟨"B", 0⟩), ("3", ⟨"C", 0⟩)]
        (fun c => if c = "2" then .err else .ok 5) (fun _ _ => .ok)
    ∧ TickEvent.sent "3" 5 ∈ tickEvents [("1", ⟨"A", 0⟩), ("2", ⟨"B", 0⟩), ("3", ⟨"C", 0⟩)]
        (fun c => if c = "2" then .err else .ok 5) (fun _ _ => .ok) := by
  have h := C4_fanout_isolation [("1", ⟨"A", 0⟩), ("2", ⟨"B", 0⟩), ("3", ⟨"C", 0⟩)]
    (fun c => if c = "2" then .err else .ok 5) (fun _ _ => .ok)
  refine ⟨h.1, ?_, ?_, ?_⟩
  · exact (((h.2.1 "1" (by simp)).2 5 (by simp))).1
  · exact (h.2.1 "2" (by simp)).1 (by simp)
  · exact (((h.2.1 "3" (by simp)).2 5 (by simp))).1

/-! ### Substring decomposition and transitivity -/

theorem charsStartWith_ex : ∀ (n h : List Char), charsStartWith h n = true → ∃ t, h = n ++ t := by
  intro n
  induction n with
  | nil => intro h _; exact ⟨h, rfl⟩
  | cons b bs ih =>
      intro h hs
      cases h with
      | nil => simp [charsStartWith] at hs
      | cons a as =>
          simp only [charsStartWith, Bool.and_eq_true, beq_iff_eq] at hs
          obtain ⟨t, ht⟩ := ih as hs.2
          exact ⟨t, by simp [hs.1, ht]⟩

theorem charsContain_ex (n h : List Char) (hc : charsContain n h = true) :
    ∃ p s, h = p ++ n ++ s := by
  induction h with
  | nil =>
      cases n with
      | nil => exact ⟨[], [], rfl⟩
      | cons b bs => simp [charsContain] at hc
  | cons a as ih =>
      simp only [charsContain, Bool.or_eq_true] at hc
      cases hc with
      | inl hs =>
          obtain ⟨t, ht⟩ := charsStartWith_ex n (a :: as) hs
          exact ⟨[], t, by simp [ht]⟩
      | inr hcc =>
          obtain ⟨p, s, hps⟩ := ih hcc
          exact ⟨a :: p, s, by simp [hps]⟩

theorem strContains_trans (a b c : String) (h1 : strContains a b = true)
    (h2 : strContains b c = true) : strContains a c = true := by
  unfold strContains at h1 h2 ⊢
  obtain ⟨p, s, hps⟩ := charsContain_ex _ _ h1
  obtain ⟨p2, s2, hps2⟩ := charsContain_ex _ _ h2
  rw [hps, hps2]
  have heq : (p ++ (p2 ++ c.toList ++ s2)) ++ s
      = (p ++ p2) ++ (c.toList ++ (s2 ++ s)) := by
    simp [List.append_assoc]
  rw [heq]
  exact charsContain_append_right _ _ _
    (charsContain_append_left _ _ _ (charsContain_refl _))

/-! ## Claim C2: no mention means Silence and no downstream call -/

/-- C2: if the inbound text contains neither the bot's name nor its handle
(case-insensitive substring) and the message is not a reply to the bot, then
main.py's handler reaches the Silence decision, performs no ResponderClient
call and no ContentProvider fetch, and returns normally; likewise server.py's
`process_message` answers the empty (silent) reply without calling the model
when its mention test fails. -/
theorem C2_no_mention_silence (env : BotEnv) (m : InMsg) (g : Groups)
    (k : Option String) (o : ApiOutcome) (s : String)
    (hm : mentionedIn (extractText m) env.username m.replyToBot = false)
    (hs : SmoothBot.should_respond s = false) :
    (handle_message env m g).decision = .Silence
    ∧ (handle_message env m g).trace.all
        (fun c => !c.isResponderCall && !c.isContentFetch) = true
    ∧ (handle_message env m g).raised = false
    ∧ SmoothBot.process_message k o s = Except.ok ("", false) := by
  have hcore : dispatchCore env m = ([], .Silence, false) := by
    unfold dispatchCore
    simp [extractText] at hm ⊢
    simp [hm]
  refine ⟨?_, ?_, ?_, ?_⟩
  · simp [handle_message, hcore]
  · cases hg : isGroupType m.chatType <;>
      simp [handle_message, hcore, hg, Call.isResponderCall, Call.isContentFetch]
  · simp [handle_message, hcore]
  · simp [SmoothBot.process_message, hs]

/-- C2 witness: the unrelated text "hello world" in a group chat (not a reply
to the bot), and the unrelated server message "hello". -/
theorem C2_no_mention_silence_witness :
    (handle_message ⟨"smoothbot", 0, "t", [], [], [], none, .reqErr⟩
        ⟨.group, 42, "G", some "hello world", none, false, false⟩ []).decision = .Silence
    ∧ (handle_message ⟨"smoothbot", 0, "t", [], [], [], none, .reqErr⟩
        ⟨.group, 42, "G", some "hello world", none, false, false⟩ []).trace.all
        (fun c => !c.isResponderCall && !c.isContentFetch) = true
    ∧ (handle_message ⟨"smoothbot", 0, "t", [], [], [], none, .reqErr⟩
        ⟨.group, 42, "G", some "hello world", none, false, false⟩ []).raised = false
    ∧ SmoothBot.process_message none .timeoutExn "hello" = Except.ok ("", false) :=
  C2_no_mention_silence ⟨"smoothbot", 0, "t", [], [], [], none, .reqErr⟩
    ⟨.group, 42, "G", some "hello world", none, false, false⟩ [] none .timeoutExn "hello"
    (by decide) (by decide)

/-! ## Claim C7: unconditional group registration -/

/-- The dispatch part never writes the registry (only the tracking block that
precedes it does). -/
theorem dispatchCore_no_registry (env : BotEnv) (m : InMsg) :
    (dispatchCore env m).1.all (fun c => !c.isRegistryWrite) = true := by
  by_cases h1 : mentionedIn (extractText m) env.username m.replyToBot = false
  · simp [dispatchCore, h1]
  · by_cases h2 : is_news_request (extractText m) = true
    · simp [dispatchCore, h1, h2, newsQueries, Call.isRegistryWrite]
    · cases ho : env.openrouter with
      | http429 => simp [dispatchCore, h1, h2, ho, Call.isRegistryWrite]
      | okBody c =>
          cases c with
          | none => simp [dispatchCore, h1, h2, ho, Call.isRegistryWrite]
          | some s =>
              by_cases hs : s = "" <;>
                simp [dispatchCore, h1, h2, ho, hs, Call.isRegistryWrite]
      | reqErr => simp [dispatchCore, h1, h2, ho, Call.isRegistryWrite]

/-- C7: a message from a group-type chat is upserted into the registry as the
handler's first effect, before the mention decision (hence regardless of it);
a message from a non-group-type chat leaves the registry untouched and the
trace free of registry writes. -/
theorem C7_group_registration (env : BotEnv) (m : InMsg) (g : Groups) :
    (isGroupType m.chatType = true →
      (handle_message env m g).groups = add_group env.now g m.chatId m.chatTitle
      ∧ (handle_message env m g).trace.head?
          = some (.registryUpsert m.chatId m.chatTitle))
    ∧ (isGroupType m.chatType = false →
      (handle_message env m g).groups = g
      ∧ (handle_message env m g).trace.all (fun c => !c.isRegistryWrite) = true) := by
  constructor
  · intro hg
    refine ⟨by simp [handle_message, hg], ?_⟩
    simp [handle_message, hg]
  · intro hg
    refine ⟨by simp [handle_message, hg], ?_⟩
    simp only [handle_message, hg, Bool.false_eq_true, if_false, List.nil_append]
    exact dispatchCore_no_registry env m

/-- C7 witness: a group-chat message is registered (and first in the trace)
whether or not it mentions the bot; a private-chat message never touches the
registry. -/
theorem C7_group_registration_witness :
    ((handle_message ⟨"smoothbot", 3, "t", [], [], [], none, .reqErr⟩
        ⟨.group, 42, "G", some "hello world", none, false, false⟩ []).groups
      = add_group 3 [] 42 "G"
    ∧ (handle_message ⟨"smoothbot", 3, "t", [], [], [], none, .reqErr⟩
        ⟨.group, 42, "G", some "hello world", none, false, false⟩ []).trace.head?
      = some (.registryUpsert 42 "G"))
    ∧ ((handle_message ⟨"smoothbot", 3, "t", [], [], [], none, .reqErr⟩
        ⟨.privateChat, 42, "P", some "hello world", none, false, false⟩ []).groups = []
    ∧ (handle_message ⟨"smoothbot", 3, "t", [], [], [], none, .reqErr⟩
        ⟨.privateChat, 42, "P", some "hello world", none, false, false⟩ []).trace.all
        (fun c => !c.isRegistryWrite) = true) :=
  ⟨(C7_group_registration ⟨"smoothbot", 3, "t", [], [], [], none, .reqErr⟩
      ⟨.group, 42, "G", some "hello world", none, false, false⟩ []).1 rfl,
   (C7_group_registration ⟨"smoothbot", 3, "t", [], [], [], none, .reqErr⟩
      ⟨.privateChat, 42, "P", some "hello world", none, false, false⟩ []).2 rfl⟩

/-! ## Claim C6: mention plus news keyword gives the synthesized news reply -/

/-- The assembled news message contains each of its three sections whole. -/
theorem format_news_message_has_sections (ts : String) (c i w : List Article) :
    strContains (format_news_message ts c i w)
        (format_news_section "CRYPTO NEWS" "💰" c) = true
    ∧ strContains (format_news_message ts c i w)
        (format_news_section "INDIA NEWS" "🇮🇳" i) = true
    ∧ strContains (format_news_message ts c i w)
        (format_news_section "WORLD NEWS" "🌍" w) = true := by
  unfold format_news_message
  refine ⟨?_, ?_, ?_⟩
  · apply strContains_append_left
    apply strContains_append_left
    apply strContains_append_left
    apply strContains_append_left
    apply strContains_append_left
    apply strContains_append_left
    apply strContains_append_right
    exact strContains_refl _
  · apply strContains_append_left
    apply strContains_append_left
    apply strContains_append_left
    apply strContains_append_left
    apply strContains_append_right
    exact strContains_refl _
  · apply strContains_append_left
    apply strContains_append_left
    apply strContains_append_right
    exact strContains_refl _

/-- Every news section starts with its fixed header. -/
theorem format_news_section_has_header (t e : String) (arts : List Article) :
    strContains (format_news_section t e arts) (sectionHeader t e) = true := by
  unfold format_news_section
  exact strContains_append_left _ _ _ (strContains_refl _)

/-- A section over no articles is the header plus the fixed placeholder. -/
theorem format_news_section_empty (t e : String) :
    format_news_section t e [] = sectionHeader t e ++ newsSectionPlaceholder := rfl

/-- A section over at least one article is the header plus the rendered
article lines. -/
theorem format_news_section_nonempty (t e : String) (a : Article) (l : List Article) :
    format_news_section t e (a :: l) = sectionHeader t e ++ renderArticles (a :: l) := rfl

/-- C6: when the inbound text mentions the bot and contains a news-intent
keyword, the handler reaches the NewsReply decision, never calls the
ResponderClient, and sends the synthesized news message, which contains all
three fixed section headers and, per section, either the rendered articles or
the fixed placeholder body. -/
theorem C6_news_request (env : BotEnv) (m : InMsg) (g : Groups)
    (hm : mentionedIn (extractText m) env.username m.replyToBot = true)
    (hk : is_news_request (extractText m) = true) :
    (handle_message env m g).decision = .NewsReply
    ∧ (handle_message env m g).trace.all (fun c => !c.isResponderCall) = true
    ∧ Call.sendReply (format_news_message env.timeStr env.crypto env.india env.world)
        ∈ (handle_message env m g).trace
    ∧ strContains (format_news_message env.timeStr env.crypto env.india env.world)
        (sectionHeader "CRYPTO NEWS" "💰") = true
    ∧ strContains (format_news_message env.timeStr env.crypto env.india env.world)
        (sectionHeader "INDIA NEWS" "🇮🇳") = true
    ∧ strContains (format_news_message env.timeStr env.crypto env.india env.world)
        (sectionHeader "WORLD NEWS" "🌍") = true
    ∧ (env.crypto = [] →
        strContains (format_news_message env.timeStr env.crypto env.india env.world)
          (sectionHeader "CRYPTO NEWS" "💰" ++ newsSectionPlaceholder) = true)
    ∧ (env.crypto ≠ [] →
        strContains (format_news_message env.timeStr env.crypto env.india env.world)
          (sectionHeader "CRYPTO NEWS" "💰" ++ renderArticles env.crypto) = true)
    ∧ (env.india = [] →
        strContains (format_news_message env.timeStr env.crypto env.india env.world)
          (sectionHeader "INDIA NEWS" "🇮🇳" ++ newsSectionPlaceholder) = true)
    ∧ (env.india ≠ [] →
        strContains (format_news_message env.timeStr env.crypto env.india env.world)
          (sectionHeader "INDIA NEWS" "🇮🇳" ++ renderArticles env.india) = true)
    ∧ (env.world = [] →
        strContains (format_news_message env.timeStr env.crypto env.india env.world)
          (sectionHeader "WORLD NEWS" "🌍" ++ newsSectionPlaceholder) = true)
    ∧ (env.world ≠ [] →
        strContains (format_news_message env.timeStr env.crypto env.india env.world)
          (sectionHeader "WORLD NEWS" "🌍" ++ renderArticles env.world) = true) := by
  have hcore : dispatchCore env m
      = ([.sendReply newsIntroReply] ++ newsQueries.map Call.contentFetch
          ++ [.sendReply (format_news_message env.timeStr env.crypto env.india env.world)],
         .NewsReply, false) := by
    unfold dispatchCore
    simp [hm, hk]
  have hsec := format_news_message_has_sections env.timeStr env.crypto env.india env.world
  refine ⟨?_, ?_, ?_, ?_, ?_, ?_, ?_, ?_, ?_, ?_, ?_, ?_⟩
  · simp [handle_message, hcore]
  · cases hg : isGroupType m.chatType <;>
      simp [handle_message, hcore, hg, newsQueries, Call.isResponderCall]
  · cases hg : isGroupType m.chatType <;>
      simp [handle_message, hcore, hg]
  · exact strContains_trans _ _ _ hsec.1 (format_news_section_has_header _ _ _)
  · exact strContains_trans _ _ _ hsec.2.1 (format_news_section_has_header _ _ _)
  · exact strContains_trans _ _ _ hsec.2.2 (format_news_section_has_header _ _ _)
  · intro hc
    rw [hc]
    have h := hsec.1
    rw [hc, format_news_section_empty] at h
    exact h
  · intro hc
    cases henv : env.crypto with
    | nil => exact absurd henv hc
    | cons a l =>
        have h := hsec.1
        rw [henv, format_news_section_nonempty] at h
        exact h
  · intro hc
    rw [hc]
    have h := hsec.2.1
    rw [hc, format_news_section_empty] at h
    exact h
  · intro hc
    cases henv : env.india with
    | nil => exact absurd henv hc
    | cons a l =>
        have h := hsec.2.1
        rw [henv, format_news_section_nonempty] at h
        exact h
  · intro hc
    rw [hc]
    have h := hsec.2.2
    rw [hc, format_news_section_empty] at h
    exact h
  · intro hc
    cases henv : env.world with
    | nil => exact absurd henv hc
    | cons a l =>
        have h := hsec.2.2
        rw [henv, format_news_section_nonempty] at h
        exact h

/-- C6 witness: the scenario text "hey smooth, what's happening today?" in a
group chat with all three fetches empty — NewsReply, the crypto header
present, and the crypto section filled with its placeholder. -/
theorem C6_news_request_witness :
    (handle_message ⟨"smoothbot", 0, "ts", [], [], [], none, .reqErr⟩
        ⟨.group, 42, "G", some "hey smooth, what\x27s happening today?", none,
          false, false⟩ []).decision = .NewsReply
    ∧ strContains (format_news_message "ts" [] [] [])
        (sectionHeader "CRYPTO NEWS" "💰") = true
    ∧ strContains (format_news_message "ts" [] [] [])
        (sectionHeader "CRYPTO NEWS" "💰" ++ newsSectionPlaceholder) = true :=
  ⟨(C6_news_request ⟨"smoothbot", 0, "ts", [], [], [], none, .reqErr⟩
      ⟨.group, 42, "G", some "hey smooth, what\x27s happening today?", none,
        false, false⟩ [] (by decide) (by decide)).1,
   (C6_news_request ⟨"smoothbot", 0, "ts", [], [], [], none, .reqErr⟩
      ⟨.group, 42, "G", some "hey smooth, what\x27s happening today?", none,
        false, false⟩ [] (by decide) (by decide)).2.2.2.1,
   (C6_news_request ⟨"smoothbot", 0, "ts", [], [], [], none, .reqErr⟩
      ⟨.group, 42, "G", some "hey smooth, what\x27s happening today?", none,
        false, false⟩ [] (by decide) (by decide)).2.2.2.2.2.2.1 rfl⟩

/-! ## Claim C9: canned prompt for image messages -/

/-- On the model path (mention, no news intent), the handler makes exactly one
ResponderClient call, whose text/image payload is `modelInput`. -/
theorem handle_message_model_call (env : BotEnv) (m : InMsg) (g : Groups)
    (hm : mentionedIn (extractText m) env.username m.replyToBot = true)
    (hk : is_news_request (extractText m) = false) :
    respondersOf (handle_message env m g).trace = [modelInput env m] := by
  have hcore : respondersOf (dispatchCore env m).1 = [modelInput env m] := by
    cases ho : env.openrouter with
    | http429 => simp [dispatchCore, hm, hk, ho, respondersOf]
    | okBody c =>
        cases c with
        | none => simp [dispatchCore, hm, hk, ho, respondersOf]
        | some s =>
            by_cases hs : s = "" <;>
              simp [dispatchCore, hm, hk, ho, hs, respondersOf]
    | reqErr => simp [dispatchCore, hm, hk, ho, respondersOf]
  cases hg : isGroupType m.chatType <;>
    simp [handle_message, hg, respondersOf, List.filterMap_append] <;>
    simpa [respondersOf] using hcore

/-- C9 counterexample: an empty-text photo message replying to the bot, on
which the Telegram `get_file` call fails — the canned-prompt substitution is
skipped (it sits inside the same `try` as `get_file`), so the model receives
the empty text with no image, not the canned prompt the claim requires. -/
theorem C9_counterexample :
    respondersOf (handle_message
        ⟨"smoothbot", 0, "ts", [], [], [], none, .okBody (some "hi")⟩
        ⟨.privateChat, 1, "", none, none, true, true⟩ []).trace = [("", none)]
    ∧ ("" : String) ≠ cannedImagePrompt := by
  constructor
  · decide
  · decide

/-- C9 (amended): for a photo message on the model path, provided the photo
file fetch succeeds, an empty text or a text that is exactly the bot's name
(case-insensitively) is replaced by the fixed canned prompt and the fetched
file path is attached, while any other text is sent unchanged with the image
attached; if the file fetch fails, the original text is sent with no image. -/
theorem C9_image_prompt (env : BotEnv) (m : InMsg) (g : Groups)
    (hm : mentionedIn (extractText m) env.username m.replyToBot = true)
    (hk : is_news_request (extractText m) = false)
    (hp : m.hasPhoto = true) :
    (∀ u, env.getFile = some u →
      ((extractText m = "" ∨ pyLower mainBotName = pyLower (extractText m)) →
        respondersOf (handle_message env m g).trace = [(cannedImagePrompt, some u)])
      ∧ (¬ (extractText m = "" ∨ pyLower mainBotName = pyLower (extractText m)) →
        respondersOf (handle_message env m g).trace = [(extractText m, some u)]))
    ∧ (env.getFile = none →
        respondersOf (handle_message env m g).trace = [(extractText m, none)]) := by
  have hcall := handle_message_model_call env m g hm hk
  constructor
  · intro u hu
    constructor
    · intro hcond
      rw [hcall]
      simp [modelInput, hp, hu, hcond]
    · intro hcond
      rw [hcall]
      simp [modelInput, hp, hu, hcond]
  · intro hu
    rw [hcall]
    simp [modelInput, hp, hu]

/-- C9 witness: a photo whose caption is exactly "Smooth" and whose file fetch
yields "u1" — the model call carries the canned prompt and the image. -/
theorem C9_image_prompt_witness :
    respondersOf (handle_message
        ⟨"smoothbot", 0, "ts", [], [], [], some "u1", .okBody (some "hi")⟩
        ⟨.privateChat, 1, "", none, some "Smooth", true, false⟩ []).trace
      = [(cannedImagePrompt, some "u1")] :=
  ((C9_image_prompt
      ⟨"smoothbot", 0, "ts", [], [], [], some "u1", .okBody (some "hi")⟩
      ⟨.privateChat, 1, "", none, some "Smooth", true, false⟩ []
      (by decide) (by decide) rfl).1 "u1" rfl).1 (by decide)

/-! ## Claim C5: content sections never fail to their caller -/

theorem append_ne_empty_left (a b : String) (ha : a ≠ "") : a ++ b ≠ "" := by
  intro h
  have hd : (a ++ b).data = [] := by rw [h]
  rw [String.data_append] at hd
  have hnil := (List.append_eq_nil.mp hd).1
  exact ha (String.ext_iff.mpr (by simpa using hnil))

/-- C5: every ContentProvider section is a total function of its fetch
outcome: a raised fetch or an empty result set yields the fixed
domain-appropriate placeholder (for the quote, one of the four fixed fallback
strings, picked by the random index), every section always returns non-empty
text, each section of the daily document depends only on its own fetch
outcome, and the assembled daily broadcast document contains both section
texts and is non-empty even when every source fails. -/
theorem C5_content_fallbacks :
    get_crypto_news none = cryptoFailText
    ∧ get_crypto_news (some []) = cryptoEmptyText
    ∧ (∀ i, get_motivational_quote none i = quoteFallbacks.get (Fin.cast rfl i))
    ∧ (∀ i, get_motivational_quote none i ∈ quoteFallbacks)
    ∧ (∀ i, get_motivational_quote (some []) i = quoteFallbacks.get (Fin.cast rfl i))
    ∧ (∀ t e, format_news_section t e [] = sectionHeader t e ++ newsSectionPlaceholder)
    ∧ (∀ r, get_crypto_news r ≠ "")
    ∧ (∀ r i, get_motivational_quote r i ≠ "")
    ∧ (∀ qr qr' i i' cr, get_motivational_quote qr i = get_motivational_quote qr' i' →
        generate_daily_message qr i cr = generate_daily_message qr' i' cr)
    ∧ (∀ qr i cr cr', get_crypto_news cr = get_crypto_news cr' →
        generate_daily_message qr i cr = generate_daily_message qr i cr')
    ∧ (∀ q c, strContains (dailyTemplate q c) q = true
        ∧ strContains (dailyTemplate q c) c = true)
    ∧ (∀ i, generate_daily_message none i none ≠ "") := by
  refine ⟨rfl, rfl, fun i => rfl, ?_, fun i => rfl, fun t e => rfl, ?_, ?_, ?_, ?_, ?_, ?_⟩
  · intro i
    exact List.get_mem quoteFallbacks _ _
  · intro r
    match r with
    | none => decide
    | some coins =>
        unfold get_crypto_news
        by_cases hemp : coins.take 5 = []
        · simp [hemp]
          decide
        · have : (coins.take 5).isEmpty = false := by
            cases h5 : coins.take 5 with
            | nil => exact absurd h5 hemp
            | cons a l => rfl
          simp only [this, Bool.false_eq_true, if_false]
          exact append_ne_empty_left _ _ (by decide)
  · intro r i
    match r with
    | none => fin_cases i <;> decide
    | some [] => fin_cases i <;> decide
    | some (d :: t) =>
        unfold get_motivational_quote
        exact append_ne_empty_left _ _
          (append_ne_empty_left _ _ (append_ne_empty_left _ _ (by decide)))
  · intro qr qr' i i' cr h
    simp [generate_daily_message, h]
  · intro qr i cr cr' h
    simp [generate_daily_message, h]
  · intro q c
    constructor
    · unfold dailyTemplate
      apply strContains_append_left
      apply strContains_append_left
      apply strContains_append_left
      apply strContains_append_right
      exact strContains_refl _
    · unfold dailyTemplate
      apply strContains_append_left
      apply strContains_append_right
      exact strContains_refl _
  · intro i
    fin_cases i <;> decide

/-- C5 witness: a quote fetch that raised and one that returned an empty array
produce the same fallback (at random index 0), hence the same daily document
around an unchanged crypto section. -/
theorem C5_content_fallbacks_witness :
    generate_daily_message (some []) (0 : Fin 4) none
      = generate_daily_message none (0 : Fin 4) none :=
  C5_content_fallbacks.2.2.2.2.2.2.2.2.1 (some []) none (0 : Fin 4) (0 : Fin 4)
    none (by decide)

/-! ## Claim C8: missing credentials at startup -/

/-- C8 counterexample: the server.py entry point with no language-model API
key still starts its scheduler and HTTP endpoint, and a posted message
mentioning the bot is answered 200 with the per-call configuration-error
reply — the degraded mode the claim says must not occur. -/
theorem C8_counterexample :
    server_startup none = ⟨true, true, true⟩
    ∧ ServerApp.handle_message none .timeoutExn
        (some [("message", .str "hi smooth")])
      = ⟨200, some configErrorReply, true⟩ := by
  constructor
  · rfl
  · decide

/-- C8 (amended): the main.py entry point refuses to start when the chat
platform token or the language-model API key is missing — no handler, no
scheduler, no polling; the server.py entry point instead starts its scheduler
and endpoint unconditionally, and with a missing key answers each mention
with the fixed configuration-error reply per call. -/
theorem C8_startup_credentials (tok key nk : Option String) (o : ApiOutcome)
    (s : String)
    (hmiss : pyTruthy tok = false ∨ pyTruthy key = false) :
    main_startup tok key nk = ⟨false, false, false⟩
    ∧ server_startup key = ⟨true, true, true⟩
    ∧ (SmoothBot.should_respond s = true →
        SmoothBot.process_message none o s = .ok (configErrorReply, true)) := by
  refine ⟨?_, rfl, ?_⟩
  · unfold main_startup
    rcases hmiss with h | h
    · simp [h]
    · by_cases ht : pyTruthy tok = false <;> simp [ht, h]
  · intro hs
    unfold SmoothBot.process_message
    simp [hs, get_ai_response, pyTruthy, configErrorResult]

/-- C8 witness: a missing Telegram token aborts the main.py startup; the
server still runs and answers "hi smooth" with the configuration-error
reply when no key is configured. -/
theorem C8_startup_credentials_witness :
    main_startup none (some "k") none = ⟨false, false, false⟩
    ∧ server_startup (some "k") = ⟨true, true, true⟩
    ∧ SmoothBot.process_message none .timeoutExn "hi smooth"
        = .ok (configErrorReply, true) :=
  have h := C8_startup_credentials none (some "k") none .timeoutExn "hi smooth"
    (Or.inl (by decide))
  ⟨h.1, h.2.1, h.2.2 (by decide)⟩

/-! ## Claim C10: the message endpoint validates before dispatch -/

/-- C10: a POST whose JSON body is absent, lacks a "message" field, or whose
message strips to the empty string is answered 400 with no model call; a
well-formed non-mention message is answered 200 with the empty reply string
and still no model call. -/
theorem C10_route_validation (k : Option String) (o : ApiOutcome)
    (body : List (String × JsonVal)) :
    ServerApp.handle_message k o none = ⟨400, none, false⟩
    ∧ (jsonLookup body "message" = none →
        ServerApp.handle_message k o (some body) = ⟨400, none, false⟩)
    ∧ (∀ s0, jsonLookup body "message" = some (.str s0) → pyStrip s0 = "" →
        ServerApp.handle_message k o (some body) = ⟨400, none, false⟩)
    ∧ (∀ s0, jsonLookup body "message" = some (.str s0) → pyStrip s0 ≠ "" →
        SmoothBot.should_respond (pyStrip s0) = false →
        ServerApp.handle_message k o (some body) = ⟨200, some "", false⟩) := by
  refine ⟨rfl, ?_, ?_, ?_⟩
  · intro hl
    by_cases hb : body = [] <;>
      simp [ServerApp.handle_message, hb, hl]
  · intro s0 hl hstrip
    have hb : body ≠ [] := by
      intro hb
      rw [hb] at hl
      exact absurd hl (by simp [jsonLookup])
    simp [ServerApp.handle_message, hb, hl, hstrip]
  · intro s0 hl hne hresp
    have hb : body ≠ [] := by
      intro hb
      rw [hb] at hl
      exact absurd hl (by simp [jsonLookup])
    simp [ServerApp.handle_message, hb, hl, hne, SmoothBot.process_message, hresp]

/-- C10 witness: an absent body, a body without "message", a whitespace-only
message, and a well-formed non-mention message, each at its required
response. -/
theorem C10_route_validation_witness :
    ServerApp.handle_message none .timeoutExn none = ⟨400, none, false⟩
    ∧ ServerApp.handle_message none .timeoutExn (some [("x", .str "y")])
        = ⟨400, none, false⟩
    ∧ ServerApp.handle_message none .timeoutExn (some [("message", .str "   ")])
        = ⟨400, none, false⟩
    ∧ ServerApp.handle_message none .timeoutExn (some [("message", .str "hello")])
        = ⟨200, some "", false⟩ :=
  ⟨(C10_route_validation none .timeoutExn []).1,
   (C10_route_validation none .timeoutExn [("x", .str "y")]).2.1 (by decide),
   (C10_route_validation none .timeoutExn [("message", .str "   ")]).2.2.1 "   "
     (by decide) (by decide),
   (C10_route_validation none .timeoutExn [("message", .str "hello")]).2.2.2 "hello"
     (by decide) (by decide) (by decide)⟩

end Smooth
